import Mathlib

/-!
# Verification of the OpenFoodFacts MCP tool layer (`src/tools/index.ts`)

A shallow embedding of the product-resolution and sampling-orchestration
logic of `src/tools/index.ts`:

* `findProduct` — the two-stage product resolver (direct barcode lookup,
  then search-then-second-fetch fallback);
* `analyzeProduct`, `compareProducts`, `suggestRecipes` — the three
  AI-sampling tool handlers.

External collaborators (`getProductByBarcode`, `searchProducts`,
`requestSampling`) are modelled as oracles carried in an environment: each
call either returns a value (`CallResult.ok`) or throws
(`CallResult.err msg`), mirroring a settled JavaScript promise.  Every
collaborator invocation is recorded in a trace of `Call`s so that claims
about which collaborators run ("no search call is made", "no sampling
request was built") are expressible.  A computation that may end in an
uncaught JavaScript throw is modelled with `Except String`; `catchLog`
is the `try { … } catch (e) { logger.error(…) }` pattern of the source.

JavaScript value conventions used throughout: a possibly-absent field is an
`Option`; `none` is `null`/`undefined`; a string is falsy exactly when it
is empty; template interpolation of an absent value prints `"undefined"`.
-/

/-- Outcome of one collaborator call: the promise either fulfils with a
value or rejects with an error message. -/
inductive CallResult (α : Type) where
  | ok (v : α)
  | err (msg : String)
deriving Repr, DecidableEq

/-- A product record.  The source treats products as loosely-typed records
(`any`); we model exactly the fields the tool layer reads, each optional
because the external database guarantees nothing. -/
structure Product where
  product_name : Option String
  brands : Option String
  barcode : Option String
  nutriscore_grade : Option String
  ingredients_text : Option String
deriving Repr, DecidableEq

/-- A search result set: an ordered sequence of product summaries.  Only
`products[0]` is ever consumed by the tool layer. -/
structure ResultSet where
  products : List Product
deriving Repr, DecidableEq

/-- The resolver's bundle, `{ product }` in the source.  The `product`
field is an `Option` because the source wraps whatever the second barcode
lookup returned, which may be absent. -/
structure ResolvedProductBundle where
  product : Option Product
deriving Repr, DecidableEq

/-- JavaScript `s.trim()` (a host builtin): drops leading and trailing
whitespace.  Implemented structurally over the character list so that it
evaluates inside the kernel. -/
def jsTrim (s : String) : String :=
  String.mk (((s.data.dropWhile Char.isWhitespace).reverse.dropWhile
    Char.isWhitespace).reverse)

/-- JavaScript string interpolation `${v}` of a possibly-absent value:
an absent value prints as `"undefined"`. -/
def jsShow (v : Option String) : String :=
  match v with
  | some s => s
  | none => "undefined"

/-- JavaScript `v || dflt` on a possibly-absent string: the default is
taken when the value is absent or empty (falsy). -/
def jsOr (v : Option String) (dflt : String) : String :=
  match v with
  | some s => if s = "" then dflt else s
  | none => dflt

/-- The regex test `/^\d+$/.test(query)`: one or more decimal digits and
nothing else. -/
def isBarcodeStr (s : String) : Bool :=
  (s != "") && s.data.all Char.isDigit

/-- `results?.products?.[0]?.barcode` followed by the truthiness test
`if (barcode)`: the first result's barcode when it is present and
non-empty. -/
def firstBarcode (rs : ResultSet) : Option String :=
  match rs.products with
  | [] => none
  | p :: _ =>
    match p.barcode with
    | some s => if s = "" then none else some s
    | none => none

/-- A sampling model hint, `{ name: … }`. -/
structure ModelHint where
  name : String
deriving Repr, DecidableEq

/-- Sampling model preferences: ranked hints plus an intelligence
priority in [0,1]. -/
structure ModelPreferences where
  hints : List ModelHint
  intelligencePriority : Rat
deriving Repr, DecidableEq

/-- One role-tagged sampling message with a text content block. -/
structure SamplingMessage where
  role : String
  text : String
deriving Repr, DecidableEq

/-- A sampling request as built by the tool handlers. -/
structure SamplingRequest where
  messages : List SamplingMessage
  systemPrompt : String
  modelPreferences : ModelPreferences
  includeContext : String
  temperature : Rat
  maxTokens : Nat
deriving Repr, DecidableEq

/-- Modelled from the spec: `SamplingResponse` (returned by the external
`requestSampling` collaborator of `sampling-service.js`, not under
`src/`) is an opaque result from which a single text payload may be
extracted; absence of extractable text is a valid outcome. -/
structure SamplingResponse where
  extractedText : Option String
deriving Repr, DecidableEq

/-- Modelled from the spec: `getResponseText` (from
`sampling-service.js`, not under `src/`) extracts the single text payload
of a response; absence of extractable text yields the empty string, not
an error. -/
def getResponseText (r : SamplingResponse) : String :=
  r.extractedText.getD ""

/-- One recorded collaborator invocation. -/
inductive Call where
  | lookupCall (barcode : String)
  | searchCall (query : String) (page : Nat) (pageSize : Nat)
  | samplingCall (req : SamplingRequest)
deriving Repr, DecidableEq

/-- Whether a recorded call is a sampling-gateway call. -/
def Call.isSampling : Call → Bool
  | .samplingCall _ => true
  | _ => false

/-- The product-database collaborators, as oracles. -/
structure Env where
  getProductByBarcode : String → CallResult (Option Product)
  searchProducts : String → Nat → Nat → CallResult ResultSet

/-- The sampling-gateway collaborator, as an oracle. -/
structure SamplingEnv where
  requestSampling : SamplingRequest → CallResult SamplingResponse

/-- A computation inside the tool layer: either a value or an uncaught
throw, together with the trace of collaborator calls issued (in order). -/
abbrev Step (α : Type) := Except String α × List Call

/-- Sequencing of awaits: a throw aborts the rest of the block; traces
accumulate in order. -/
def stepBind {α β : Type} (x : Step α) (f : α → Step β) : Step β :=
  match x with
  | (.ok v, t) =>
    match f v with
    | (r, t2) => (r, t ++ t2)
  | (.error m, t) => (.error m, t)

/-- `await getProductByBarcode(code)`: records the call; a rejection is a
throw. -/
def callLookup (env : Env) (code : String) : Step (Option Product) :=
  match env.getProductByBarcode code with
  | .ok v => (.ok v, [.lookupCall code])
  | .err m => (.error m, [.lookupCall code])

/-- `await searchProducts(q, page, pageSize)`: records the call; a
rejection is a throw. -/
def callSearch (env : Env) (q : String) (page pageSize : Nat) : Step ResultSet :=
  match env.searchProducts q page pageSize with
  | .ok v => (.ok v, [.searchCall q page pageSize])
  | .err m => (.error m, [.searchCall q page pageSize])

/-- `try { body } catch (error) { logger.error(…) }`: a throw inside the
body is swallowed (logged) and the block yields `fallback` instead; calls
already issued stay in the trace. -/
def catchLog {α : Type} (x : Step α) (fallback : α) : Step α :=
  match x with
  | (.ok v, t) => (.ok v, t)
  | (.error _, t) => (.ok fallback, t)

/-- Body of the first `try` block of `findProduct` (lines 25–30):
direct barcode lookup; a truthy product is returned as the bundle,
otherwise fall through. -/
def directLookupBody (env : Env) (query : String) : Step (Option ResolvedProductBundle) :=
  stepBind (callLookup env query) fun product =>
    match product with
    | some p => (.ok (some { product := some p }), [])
    | none => (.ok none, [])

/-- Body of the second `try` block of `findProduct` (lines 33–39):
search with the query on page 1, pageSize 1; if the first result carries
a truthy barcode, a second lookup fetches the full record, and its result
— whatever it is — is wrapped as the bundle. -/
def searchBody (env : Env) (query : String) : Step (Option ResolvedProductBundle) :=
  stepBind (callSearch env query 1 1) fun results =>
    match firstBarcode results with
    | some barcode =>
      stepBind (callLookup env barcode) fun product =>
        (.ok (some { product := product }), [])
    | none => (.ok none, [])

/-- `findProduct` (lines 18–45): blank input resolves to absent with no
calls; an all-digit trimmed identifier first tries the direct lookup
(errors logged and swallowed); any identifier then falls back to
search-then-second-fetch (errors logged and swallowed); otherwise
absent. -/
def findProduct (env : Env) (nameOrBarcode : String) : Step (Option ResolvedProductBundle) :=
  if jsTrim nameOrBarcode = "" then (.ok none, [])
  else
    let query := jsTrim nameOrBarcode
    let isBarcode := isBarcodeStr query
    stepBind
      (if isBarcode then catchLog (directLookupBody env query) none
       else (.ok none, []))
      fun direct =>
        match direct with
        | some bundle => (.ok (some bundle), [])
        | none => catchLog (searchBody env query) none

/-- The tool handler's response: a single text payload plus the optional
`isError` flag (absent in the source means `false` here). -/
structure ToolResponse where
  text : String
  isError : Bool
deriving Repr, DecidableEq

/-- Modelled from the spec / host runtime: `JSON.stringify` of a product
record (a JavaScript builtin).  Fields absent from the record are omitted,
as `JSON.stringify` omits `undefined` properties.  Its exact output shape
never matters to the properties below — only that the request text is a
deterministic function of the product. -/
def jsonFields (p : Product) : List String :=
  (match p.product_name with
   | some s => ["\"product_name\":\"" ++ s ++ "\""]
   | none => []) ++
  (match p.brands with
   | some s => ["\"brands\":\"" ++ s ++ "\""]
   | none => []) ++
  (match p.barcode with
   | some s => ["\"barcode\":\"" ++ s ++ "\""]
   | none => []) ++
  (match p.nutriscore_grade with
   | some s => ["\"nutriscore_grade\":\"" ++ s ++ "\""]
   | none => []) ++
  (match p.ingredients_text with
   | some s => ["\"ingredients_text\":\"" ++ s ++ "\""]
   | none => [])

/-- Modelled from the spec / host runtime: compact `JSON.stringify(p)`. -/
def jsonStringify (p : Product) : String :=
  "\x7b" ++ String.intercalate "," (jsonFields p) ++ "\x7d"

/-- Modelled from the spec / host runtime:
`JSON.stringify(p, null, 2)` — pretty-printed with two-space indent. -/
def jsonStringifyPretty (p : Product) : String :=
  "\x7b\n  " ++ String.intercalate ",\n  " (jsonFields p) ++ "\n\x7d"

/-- The analysis sampling request built by `analyzeProduct`
(lines 102–109). -/
def analyzeRequest (p : Product) : SamplingRequest where
  messages := [{ role := "user",
                 text := "Analyze:\n\n" ++ jsonStringifyPretty p }]
  systemPrompt := "Nutritional expert. Provide: 1) Overview 2) Nutrition 3) Ingredients 4) Allergens 5) Health 6) Recommendations"
  modelPreferences := { hints := [{ name := "claude-3" }], intelligencePriority := 9/10 }
  includeContext := "thisServer"
  temperature := 3/10
  maxTokens := 1500

/-- The comparison sampling request built by `compareProducts`
(lines 134–141). -/
def compareRequest (p1 p2 : Product) : SamplingRequest where
  messages := [{ role := "user",
                 text := "Compare:\n\n1:\n" ++ jsonStringify p1 ++
                   "\n\n2:\n" ++ jsonStringify p2 }]
  systemPrompt := "Compare: 1) Overview 2) Nutrition 3) Ingredients 4) Health 5) Recommendation"
  modelPreferences := { hints := [{ name := "claude-3" }], intelligencePriority := 9/10 }
  includeContext := "thisServer"
  temperature := 2/10
  maxTokens := 2000

/-- The success-path header of `analyzeProduct` (line 110):
`# ${p.product_name || "Product"} (${p.brands || "Unknown"})\n`. -/
def analyzeHeader (p : Product) : String :=
  "# " ++ jsOr p.product_name "Product" ++ " (" ++ jsOr p.brands "Unknown" ++ ")\n"

/-- The local fallback report of `analyzeProduct` (line 113), built from
the resolved product's name, brand, nutrition grade and ingredients
text. -/
def analyzeFallback (p : Product) : String :=
  "# " ++ jsShow p.product_name ++
  "\nBrand: " ++ jsShow p.brands ++
  "\nNutri-Score: " ++ jsShow p.nutriscore_grade ++
  "\nIngredients: " ++ jsShow p.ingredients_text

/-- The success-path header of `compareProducts` (line 142):
`# ${name1} vs ${name2}`. -/
def compareHeader (p1 p2 : Product) : String :=
  "# " ++ jsShow p1.product_name ++ " vs " ++ jsShow p2.product_name

/-- The local fallback report of `compareProducts` (line 144), built from
the two resolved products' names and nutrition grades. -/
def compareFallback (p1 p2 : Product) : String :=
  compareHeader p1 p2 ++
  "\nNutri-Score: " ++ jsShow p1.nutriscore_grade ++
  " vs " ++ jsShow p2.nutriscore_grade

/-- `productData?.product` with its truthiness test: the product carried
by a possibly-absent bundle. -/
def bundleProduct (d : Option ResolvedProductBundle) : Option Product :=
  d.bind ResolvedProductBundle.product

/-- The `analyzeProduct` tool handler (lines 90–115): blank input is a
terminal error; a resolution miss is a terminal error; otherwise the
analysis request is sent to the sampling gateway, and a gateway throw
degrades to the local fallback report (not an error). -/
def analyzeProduct (env : Env) (samp : SamplingEnv) (nameOrBarcode : String) :
    Except String ToolResponse × List Call :=
  if jsTrim nameOrBarcode = "" then
    (.ok { text := "Provide a product name or barcode.", isError := true }, [])
  else
    match findProduct env nameOrBarcode with
    | (.error m, t) => (.error m, t)
    | (.ok productData, t) =>
      match bundleProduct productData with
      | none =>
        (.ok { text := "\"" ++ nameOrBarcode ++ "\" not found. Try searchProducts first.",
               isError := true }, t)
      | some p =>
        match samp.requestSampling (analyzeRequest p) with
        | .ok res =>
          (.ok { text := analyzeHeader p ++ getResponseText res, isError := false },
           t ++ [.samplingCall (analyzeRequest p)])
        | .err _ =>
          (.ok { text := analyzeFallback p, isError := false },
           t ++ [.samplingCall (analyzeRequest p)])

/-- The `compareProducts` tool handler (lines 124–146): blank input is a
terminal error; both identifiers are resolved via `Promise.all` (both
always run to completion; the pure model records the traces in argument
order); identifier 1's bundle is checked before identifier 2's; a
resolution miss is a terminal error naming the missed identifier; a
gateway throw degrades to the local fallback report (not an error). -/
def compareProducts (env : Env) (samp : SamplingEnv)
    (nameOrBarcode1 nameOrBarcode2 : String) :
    Except String ToolResponse × List Call :=
  if jsTrim nameOrBarcode1 = "" ∨ jsTrim nameOrBarcode2 = "" then
    (.ok { text := "Provide both products.", isError := true }, [])
  else
    match findProduct env nameOrBarcode1, findProduct env nameOrBarcode2 with
    | (.error m, t1), (_, t2) => (.error m, t1 ++ t2)
    | (.ok _, t1), (.error m, t2) => (.error m, t1 ++ t2)
    | (.ok d1, t1), (.ok d2, t2) =>
      match bundleProduct d1 with
      | none =>
        (.ok { text := "\"" ++ nameOrBarcode1 ++ "\" not found.", isError := true },
         t1 ++ t2)
      | some p1 =>
        match bundleProduct d2 with
        | none =>
          (.ok { text := "\"" ++ nameOrBarcode2 ++ "\" not found.", isError := true },
           t1 ++ t2)
        | some p2 =>
          match samp.requestSampling (compareRequest p1 p2) with
          | .ok res =>
            (.ok { text := compareHeader p1 p2 ++ "\n\n" ++ getResponseText res,
                   isError := false },
             t1 ++ t2 ++ [.samplingCall (compareRequest p1 p2)])
          | .err _ =>
            (.ok { text := compareFallback p1 p2, isError := false },
             t1 ++ t2 ++ [.samplingCall (compareRequest p1 p2)])

/-- The `suggestRecipes` tool handler (lines 154–170): blank input is a
terminal error; a resolution miss is a terminal error; otherwise the
recipe request — built by the external `createRecipeSuggestionRequest`
collaborator, passed here as a parameter — is sent to the gateway, and a
gateway throw surfaces as an error carrying the failure's message (no
local fallback). -/
def suggestRecipes (env : Env) (samp : SamplingEnv)
    (createRecipeSuggestionRequest : Product → SamplingRequest)
    (nameOrBarcode : String) :
    Except String ToolResponse × List Call :=
  if jsTrim nameOrBarcode = "" then
    (.ok { text := "Provide a product.", isError := true }, [])
  else
    match findProduct env nameOrBarcode with
    | (.error m, t) => (.error m, t)
    | (.ok productData, t) =>
      match bundleProduct productData with
      | none =>
        (.ok { text := "\"" ++ nameOrBarcode ++ "\" not found.", isError := true }, t)
      | some p =>
        match samp.requestSampling (createRecipeSuggestionRequest p) with
        | .ok res =>
          (.ok { text := "# Recipes using " ++ jsShow p.product_name ++ "\n\n" ++
                   getResponseText res, isError := false },
           t ++ [.samplingCall (createRecipeSuggestionRequest p)])
        | .err m =>
          (.ok { text := "Recipe generation failed: " ++ m, isError := true },
           t ++ [.samplingCall (createRecipeSuggestionRequest p)])

/-- The product ultimately delivered by the resolver, if any: the bundle's
product when the run ends in `ok` with a bundle carrying one. -/
def resolvedProduct (env : Env) (s : String) : Option Product :=
  match (findProduct env s).1 with
  | .ok d => bundleProduct d
  | .error _ => none

/-- Whether the direct-lookup path returns immediately: a
barcode-classified query whose direct lookup fulfils with a product. -/
def directHitB (env : Env) (q : String) : Bool :=
  isBarcodeStr q &&
    (match env.getProductByBarcode q with
     | .ok (some _) => true
     | _ => false)

/-! ## Concrete fixtures used by witnesses and counterexamples -/

/-- A fully-populated product record. -/
def prodA : Product where
  product_name := some "Nutella"
  brands := some "Ferrero"
  barcode := some "3017620422003"
  nutriscore_grade := some "e"
  ingredients_text := some "sugar, palm oil, hazelnuts"

/-- A second fully-populated product record. -/
def prodB : Product where
  product_name := some "Peanut Butter"
  brands := some "Acme"
  barcode := some "111"
  nutriscore_grade := some "c"
  ingredients_text := some "peanuts"

/-- A search-result summary carrying no barcode at all. -/
def prodNoBarcode : Product where
  product_name := some "Mystery"
  brands := none
  barcode := none
  nutriscore_grade := none
  ingredients_text := none

/-- Environment in which the direct barcode lookup of `prodA` hits. -/
def envDirect : Env where
  getProductByBarcode := fun c =>
    if c = "3017620422003" then .ok (some prodA) else .ok none
  searchProducts := fun _ _ _ => .ok { products := [] }

/-- Environment in which the search returns a summary of `prodA`, but the
follow-up barcode lookup finds nothing. -/
def envSecondMiss : Env where
  getProductByBarcode := fun _ => .ok none
  searchProducts := fun _ _ _ => .ok { products := [prodA] }

/-- Environment in which the search succeeds with one result that carries
no barcode. -/
def envNoBarcodeHit : Env where
  getProductByBarcode := fun _ => .ok none
  searchProducts := fun _ _ _ => .ok { products := [prodNoBarcode] }

/-- Environment in which every collaborator call throws. -/
def envBoom : Env where
  getProductByBarcode := fun _ => .err "lookup boom"
  searchProducts := fun _ _ _ => .err "search boom"

/-- Environment in which barcode `111` resolves to `prodB` and everything
else resolves to nothing. -/
def envMixed : Env where
  getProductByBarcode := fun c => if c = "111" then .ok (some prodB) else .ok none
  searchProducts := fun _ _ _ => .ok { products := [] }

/-- Environment in which the query `nutella` finds a summary of `prodA`
and the follow-up lookup returns the full record. -/
def envSearchHit : Env where
  getProductByBarcode := fun c =>
    if c = "3017620422003" then .ok (some prodA) else .ok none
  searchProducts := fun q _ _ =>
    if q = "nutella" then .ok { products := [prodA] } else .ok { products := [] }

/-- Environment in which the search finds a summary of `prodA` but the
follow-up barcode lookup throws. -/
def envSecondBoom : Env where
  getProductByBarcode := fun _ => .err "second boom"
  searchProducts := fun _ _ _ => .ok { products := [prodA] }

/-- `prodA` with a different barcode and otherwise identical fields. -/
def prodAOtherBarcode : Product where
  product_name := some "Nutella"
  brands := some "Ferrero"
  barcode := some "42"
  nutriscore_grade := some "e"
  ingredients_text := some "sugar, palm oil, hazelnuts"

/-- A sampling gateway that always answers. -/
def sampOk : SamplingEnv where
  requestSampling := fun _ => .ok { extractedText := some "AI answer" }

/-- A sampling gateway that always throws. -/
def sampDown : SamplingEnv where
  requestSampling := fun _ => .err "gateway down"

/-- A stand-in for the external `createRecipeSuggestionRequest` builder
(its contract: one product in, one sampling request out). -/
def recipeRequestStub (p : Product) : SamplingRequest where
  messages := [{ role := "user", text := "Recipes for " ++ jsShow p.product_name }]
  systemPrompt := "Chef"
  modelPreferences := { hints := [{ name := "claude-3" }], intelligencePriority := 9/10 }
  includeContext := "thisServer"
  temperature := 3/10
  maxTokens := 1500

example :
    findProduct envDirect "   " = (.ok none, []) := rfl

example :
    findProduct envDirect "3017620422003" =
      (.ok (some { product := some prodA }), [.lookupCall "3017620422003"]) := rfl

example :
    findProduct envSecondMiss "nutella" =
      (.ok (some { product := none }),
       [.searchCall "nutella" 1 1, .lookupCall "3017620422003"]) := rfl

example :
    findProduct envNoBarcodeHit "nutella" =
      (.ok none, [.searchCall "nutella" 1 1]) := rfl

example :
    findProduct envBoom "123" =
      (.ok none, [.lookupCall "123", .searchCall "123" 1 1]) := rfl

example :
    (compareProducts envMixed sampOk "111" "222").1 =
      .ok { text := "\"222\" not found.", isError := true } := rfl

example :
    (analyzeProduct envSearchHit sampDown "nutella").1 =
      .ok { text := analyzeFallback prodA, isError := false } := rfl

example :
    (suggestRecipes envSearchHit sampDown recipeRequestStub "nutella").1 =
      .ok { text := "Recipe generation failed: gateway down", isError := true } := rfl

/-! ## Helper lemmas -/

/-- A barcode-classified string is non-empty. -/
lemma isBarcodeStr_ne_empty {s : String} (h : isBarcodeStr s = true) : s ≠ "" := by
  simp [isBarcodeStr] at h
  exact h.1

/-- Blank input: the resolver answers absent with an empty trace. -/
lemma findProduct_blank (env : Env) (s : String) (h : jsTrim s = "") :
    findProduct env s = (.ok none, []) := by
  simp [findProduct, h]

/-- Non-barcode input: the resolver is exactly the caught search block. -/
lemma findProduct_not_barcode (env : Env) (s : String) (h1 : jsTrim s ≠ "")
    (h2 : isBarcodeStr (jsTrim s) = false) :
    findProduct env s = catchLog (searchBody env (jsTrim s)) none := by
  simp only [findProduct, if_neg h1, h2, Bool.false_eq_true, if_false]
  cases hsb : catchLog (searchBody env (jsTrim s)) none with
  | mk r t => cases r <;> simp [stepBind]

/-- Direct barcode hit: the resolver returns the bundle at once, having
issued only the one lookup call. -/
lemma findProduct_barcode_hit (env : Env) (s : String) (p : Product)
    (h2 : isBarcodeStr (jsTrim s) = true)
    (h3 : env.getProductByBarcode (jsTrim s) = .ok (some p)) :
    findProduct env s =
      (.ok (some { product := some p }), [.lookupCall (jsTrim s)]) := by
  simp [findProduct, if_neg (isBarcodeStr_ne_empty h2), h2, stepBind, catchLog,
    directLookupBody, callLookup, h3]

/-- Direct barcode miss (lookup fulfilled with nothing): the resolver
continues with the caught search block, the lookup call staying first in
the trace. -/
lemma findProduct_barcode_miss (env : Env) (s : String)
    (h2 : isBarcodeStr (jsTrim s) = true)
    (h3 : env.getProductByBarcode (jsTrim s) = .ok none) :
    findProduct env s =
      ((catchLog (searchBody env (jsTrim s)) none).1,
       .lookupCall (jsTrim s) :: (catchLog (searchBody env (jsTrim s)) none).2) := by
  simp only [findProduct, if_neg (isBarcodeStr_ne_empty h2), h2, if_true]
  cases hsb : catchLog (searchBody env (jsTrim s)) none with
  | mk r t =>
    cases r <;>
      simp_all [stepBind, catchLog, directLookupBody, callLookup, h3]

/-- Direct barcode lookup throw: caught and logged, the resolver
continues with the caught search block, the lookup call staying first in
the trace. -/
lemma findProduct_barcode_err (env : Env) (s : String) (m : String)
    (h2 : isBarcodeStr (jsTrim s) = true)
    (h3 : env.getProductByBarcode (jsTrim s) = .err m) :
    findProduct env s =
      ((catchLog (searchBody env (jsTrim s)) none).1,
       .lookupCall (jsTrim s) :: (catchLog (searchBody env (jsTrim s)) none).2) := by
  simp only [findProduct, if_neg (isBarcodeStr_ne_empty h2), h2, if_true]
  cases hsb : catchLog (searchBody env (jsTrim s)) none with
  | mk r t =>
    cases r <;>
      simp_all [stepBind, catchLog, directLookupBody, callLookup, h3]

/-- Caught search block, search throw: absent, one search call. -/
lemma searchStep_err (env : Env) (q m : String)
    (h : env.searchProducts q 1 1 = .err m) :
    catchLog (searchBody env q) none = (.ok none, [.searchCall q 1 1]) := by
  simp [catchLog, searchBody, callSearch, stepBind, h]

/-- Caught search block, no truthy barcode on the first result (or no
result at all): absent, one search call, no second fetch. -/
lemma searchStep_no_barcode (env : Env) (q : String) (rs : ResultSet)
    (h : env.searchProducts q 1 1 = .ok rs) (h2 : firstBarcode rs = none) :
    catchLog (searchBody env q) none = (.ok none, [.searchCall q 1 1]) := by
  simp [catchLog, searchBody, callSearch, stepBind, h, h2]

/-- Caught search block, truthy barcode and fulfilled second lookup: the
second lookup's result — present or absent — is wrapped as the bundle. -/
lemma searchStep_hit (env : Env) (q bc : String) (rs : ResultSet)
    (r : Option Product)
    (h : env.searchProducts q 1 1 = .ok rs) (h2 : firstBarcode rs = some bc)
    (h3 : env.getProductByBarcode bc = .ok r) :
    catchLog (searchBody env q) none =
      (.ok (some { product := r }), [.searchCall q 1 1, .lookupCall bc]) := by
  simp [catchLog, searchBody, callSearch, callLookup, stepBind, h, h2, h3]

/-- Caught search block, truthy barcode but the second lookup throws:
caught, absent, both calls in the trace. -/
lemma searchStep_second_err (env : Env) (q bc m : String) (rs : ResultSet)
    (h : env.searchProducts q 1 1 = .ok rs) (h2 : firstBarcode rs = some bc)
    (h3 : env.getProductByBarcode bc = .err m) :
    catchLog (searchBody env q) none =
      (.ok none, [.searchCall q 1 1, .lookupCall bc]) := by
  simp [catchLog, searchBody, callSearch, callLookup, stepBind, h, h2, h3]

/-- The caught search block never ends in an uncaught throw. -/
lemma searchStep_isOk (env : Env) (q : String) :
    ∃ b, (catchLog (searchBody env q) none).1 = Except.ok b := by
  rcases h : env.searchProducts q 1 1 with rs | m
  · rcases h2 : firstBarcode rs with _ | bc
    · exact ⟨none, by rw [searchStep_no_barcode env q rs h h2]⟩
    · rcases h3 : env.getProductByBarcode bc with r | m
      · exact ⟨some { product := r }, by rw [searchStep_hit env q bc rs r h h2 h3]⟩
      · exact ⟨none, by rw [searchStep_second_err env q bc m rs h h2 h3]⟩
  · exact ⟨none, by rw [searchStep_err env q m h]⟩

/-- The resolver never ends in an uncaught throw: every collaborator
rejection is caught inside `findProduct`. -/
lemma findProduct_isOk (env : Env) (s : String) :
    ∃ b, (findProduct env s).1 = Except.ok b := by
  by_cases h1 : jsTrim s = ""
  · exact ⟨none, by rw [findProduct_blank env s h1]⟩
  · by_cases h2 : isBarcodeStr (jsTrim s) = true
    · rcases h3 : env.getProductByBarcode (jsTrim s) with p | m
      · cases p with
        | some p =>
          exact ⟨some { product := some p },
            by rw [findProduct_barcode_hit env s p h2 h3]⟩
        | none =>
          obtain ⟨b, hb⟩ := searchStep_isOk env (jsTrim s)
          exact ⟨b, by rw [findProduct_barcode_miss env s h2 h3]; exact hb⟩
      · obtain ⟨b, hb⟩ := searchStep_isOk env (jsTrim s)
        exact ⟨b, by rw [findProduct_barcode_err env s m h2 h3]; exact hb⟩
    · obtain ⟨b, hb⟩ := searchStep_isOk env (jsTrim s)
      exact ⟨b, by rw [findProduct_not_barcode env s h1 (by simpa using h2)]; exact hb⟩

/-- The resolver never issues a sampling call. -/
lemma findProduct_no_sampling (env : Env) (s : String) :
    ∀ c ∈ (findProduct env s).2, c.isSampling = false := by
  by_cases h1 : jsTrim s = ""
  · rw [findProduct_blank env s h1]; simp
  · have hsearch : ∀ c ∈ (catchLog (searchBody env (jsTrim s)) none).2,
        c.isSampling = false := by
      rcases h : env.searchProducts (jsTrim s) 1 1 with rs | m
      · rcases h2 : firstBarcode rs with _ | bc
        · rw [searchStep_no_barcode env (jsTrim s) rs h h2]
          simp [Call.isSampling]
        · rcases h3 : env.getProductByBarcode bc with r | m
          · rw [searchStep_hit env (jsTrim s) bc rs r h h2 h3]
            simp [Call.isSampling]
          · rw [searchStep_second_err env (jsTrim s) bc m rs h h2 h3]
            simp [Call.isSampling]
      · rw [searchStep_err env (jsTrim s) m h]
        simp [Call.isSampling]
    by_cases h2 : isBarcodeStr (jsTrim s) = true
    · rcases h3 : env.getProductByBarcode (jsTrim s) with p | m
      · cases p with
        | some p =>
          rw [findProduct_barcode_hit env s p h2 h3]
          simp [Call.isSampling]
        | none =>
          rw [findProduct_barcode_miss env s h2 h3]
          intro c hc
          rcases List.mem_cons.mp hc with rfl | hc
          · simp [Call.isSampling]
          · exact hsearch c hc
      · rw [findProduct_barcode_err env s m h2 h3]
        intro c hc
        rcases List.mem_cons.mp hc with rfl | hc
        · simp [Call.isSampling]
        · exact hsearch c hc
    · rw [findProduct_not_barcode env s h1 (by simpa using h2)]
      exact hsearch

/-- A delivered product forces a non-blank identifier. -/
lemma resolvedProduct_ne_blank {env : Env} {s : String} {p : Product}
    (h : resolvedProduct env s = some p) : jsTrim s ≠ "" := by
  intro hb
  rw [resolvedProduct, findProduct_blank env s hb] at h
  simp [bundleProduct] at h

/-! ## Claims -/

/-- C6: for every identifier that is empty or consists only of whitespace,
the resolver returns absent immediately, without invoking any collaborator
(no barcode lookup, no search). -/
theorem C6_blank_is_absent_no_calls (env : Env) (s : String)
    (h : jsTrim s = "") :
    findProduct env s = (Except.ok none, []) :=
  findProduct_blank env s h

/-- Witness for C6 at the whitespace-only identifier `"   "`. -/
theorem C6_blank_is_absent_no_calls_witness :
    findProduct envDirect "   " = (Except.ok none, []) :=
  C6_blank_is_absent_no_calls envDirect "   " (by decide)

/-- C4: for every all-digit (after trimming) identifier whose direct
barcode lookup yields a product, the resolver returns that product
immediately as the bundle, and no search call is made. -/
theorem C4_direct_hit_skips_search (env : Env) (s : String) (p : Product)
    (h1 : isBarcodeStr (jsTrim s) = true)
    (h2 : env.getProductByBarcode (jsTrim s) = CallResult.ok (some p)) :
    findProduct env s =
      (Except.ok (some { product := some p }), [Call.lookupCall (jsTrim s)]) ∧
    ∀ q a b, Call.searchCall q a b ∉ (findProduct env s).2 := by
  have h := findProduct_barcode_hit env s p h1 h2
  refine ⟨h, ?_⟩
  rw [h]
  intro q a b hq
  simp at hq

/-- Witness for C4 at `"3017620422003"` in `envDirect`. -/
theorem C4_direct_hit_skips_search_witness :
    findProduct envDirect "3017620422003" =
      (Except.ok (some { product := some prodA }),
       [Call.lookupCall (jsTrim "3017620422003")]) ∧
    ∀ q a b, Call.searchCall q a b ∉ (findProduct envDirect "3017620422003").2 :=
  C4_direct_hit_skips_search envDirect "3017620422003" prodA (by decide) rfl

/-- C5: for every non-blank identifier containing a non-digit character
(after trimming), the resolver never makes a direct barcode lookup its
first step: the first collaborator call is the search with the trimmed
identifier on page 1 with pageSize 1, and the only other possible call is
the second barcode fetch on a hit. -/
theorem C5_non_digit_means_search_first (env : Env) (s : String)
    (h1 : jsTrim s ≠ "") (h2 : isBarcodeStr (jsTrim s) = false) :
    (findProduct env s).2.head? = some (Call.searchCall (jsTrim s) 1 1) ∧
    ((findProduct env s).2 = [Call.searchCall (jsTrim s) 1 1] ∨
     ∃ rs bc, env.searchProducts (jsTrim s) 1 1 = CallResult.ok rs ∧
       firstBarcode rs = some bc ∧
       (findProduct env s).2 =
         [Call.searchCall (jsTrim s) 1 1, Call.lookupCall bc]) := by
  rw [findProduct_not_barcode env s h1 h2]
  rcases h : env.searchProducts (jsTrim s) 1 1 with rs | m
  · rcases h3 : firstBarcode rs with _ | bc
    · rw [searchStep_no_barcode env (jsTrim s) rs h h3]
      exact ⟨rfl, Or.inl rfl⟩
    · rcases h4 : env.getProductByBarcode bc with r | m
      · rw [searchStep_hit env (jsTrim s) bc rs r h h3 h4]
        exact ⟨rfl, Or.inr ⟨rs, bc, rfl, h3, rfl⟩⟩
      · rw [searchStep_second_err env (jsTrim s) bc m rs h h3 h4]
        exact ⟨rfl, Or.inr ⟨rs, bc, rfl, h3, rfl⟩⟩
  · rw [searchStep_err env (jsTrim s) m h]
    exact ⟨rfl, Or.inl rfl⟩

/-- Witness for C5 at `"nutella"` in `envSearchHit`. -/
theorem C5_non_digit_means_search_first_witness :
    (findProduct envSearchHit "nutella").2.head? =
      some (Call.searchCall (jsTrim "nutella") 1 1) ∧
    ((findProduct envSearchHit "nutella").2 =
       [Call.searchCall (jsTrim "nutella") 1 1] ∨
     ∃ rs bc, envSearchHit.searchProducts (jsTrim "nutella") 1 1 = CallResult.ok rs ∧
       firstBarcode rs = some bc ∧
       (findProduct envSearchHit "nutella").2 =
         [Call.searchCall (jsTrim "nutella") 1 1, Call.lookupCall bc]) :=
  C5_non_digit_means_search_first envSearchHit "nutella" (by decide) (by decide)

/-- C9: for every identifier and every collaborator behaviour (the direct
lookup throwing, the search throwing, or the second fetch throwing), the
resolver never ends in an uncaught throw; each thrown collaborator error
is caught, and resolution degrades to the next strategy step (a thrown
direct lookup is still followed by the search) or to an absent result
(a thrown search, or a thrown second fetch, yields absent). -/
theorem C9_resolver_never_propagates (env : Env) (s : String) :
    (∃ b, (findProduct env s).1 = Except.ok b) ∧
    (∀ m, isBarcodeStr (jsTrim s) = true →
       env.getProductByBarcode (jsTrim s) = CallResult.err m →
       Call.searchCall (jsTrim s) 1 1 ∈ (findProduct env s).2) ∧
    (∀ m, jsTrim s ≠ "" → directHitB env (jsTrim s) = false →
       env.searchProducts (jsTrim s) 1 1 = CallResult.err m →
       (findProduct env s).1 = Except.ok none) ∧
    (∀ rs bc m, jsTrim s ≠ "" → directHitB env (jsTrim s) = false →
       env.searchProducts (jsTrim s) 1 1 = CallResult.ok rs →
       firstBarcode rs = some bc →
       env.getProductByBarcode bc = CallResult.err m →
       (findProduct env s).1 = Except.ok none) := by
  refine ⟨findProduct_isOk env s, ?_, ?_, ?_⟩
  · intro m h2 h3
    rw [findProduct_barcode_err env s m h2 h3]
    rcases h : env.searchProducts (jsTrim s) 1 1 with rs | m2
    · rcases h4 : firstBarcode rs with _ | bc
      · rw [searchStep_no_barcode env (jsTrim s) rs h h4]; simp
      · rcases h5 : env.getProductByBarcode bc with r | m3
        · rw [searchStep_hit env (jsTrim s) bc rs r h h4 h5]; simp
        · rw [searchStep_second_err env (jsTrim s) bc m3 rs h h4 h5]; simp
    · rw [searchStep_err env (jsTrim s) m2 h]; simp
  · intro m h1 hdh h3
    by_cases h2 : isBarcodeStr (jsTrim s) = true
    · rcases h4 : env.getProductByBarcode (jsTrim s) with r | m2
      · cases r with
        | some p => exfalso; simp [directHitB, h2, h4] at hdh
        | none =>
          rw [findProduct_barcode_miss env s h2 h4,
            searchStep_err env (jsTrim s) m h3]
      · rw [findProduct_barcode_err env s m2 h2 h4,
          searchStep_err env (jsTrim s) m h3]
    · rw [findProduct_not_barcode env s h1 (by simpa using h2),
        searchStep_err env (jsTrim s) m h3]
  · intro rs bc m h1 hdh h3 h4 h5
    by_cases h2 : isBarcodeStr (jsTrim s) = true
    · rcases h6 : env.getProductByBarcode (jsTrim s) with r | m2
      · cases r with
        | some p => exfalso; simp [directHitB, h2, h6] at hdh
        | none =>
          rw [findProduct_barcode_miss env s h2 h6,
            searchStep_second_err env (jsTrim s) bc m rs h3 h4 h5]
      · rw [findProduct_barcode_err env s m2 h2 h6,
          searchStep_second_err env (jsTrim s) bc m rs h3 h4 h5]
    · rw [findProduct_not_barcode env s h1 (by simpa using h2),
        searchStep_second_err env (jsTrim s) bc m rs h3 h4 h5]

/-- Witness for C9: in `envBoom` both collaborators throw on `"123"`, yet
resolution is an `ok` absent result and the search was still attempted
after the thrown direct lookup; in `envSecondBoom` the second fetch after
a search hit throws on `"nutella"`, yet resolution is an `ok` absent
result. -/
theorem C9_resolver_never_propagates_witness :
    (∃ b, (findProduct envBoom "123").1 = Except.ok b) ∧
    Call.searchCall (jsTrim "123") 1 1 ∈ (findProduct envBoom "123").2 ∧
    (findProduct envBoom "123").1 = Except.ok none ∧
    (findProduct envSecondBoom "nutella").1 = Except.ok none :=
  ⟨(C9_resolver_never_propagates envBoom "123").1,
   (C9_resolver_never_propagates envBoom "123").2.1 "lookup boom" (by decide) rfl,
   (C9_resolver_never_propagates envBoom "123").2.2.1 "search boom"
     (by decide) (by decide) rfl,
   (C9_resolver_never_propagates envSecondBoom "nutella").2.2.2
     { products := [prodA] } "3017620422003" "second boom"
     (by decide) (by decide) rfl (by decide) rfl⟩

/-- Any bundle delivered by the caught search block either carries a
product, or carries none because the second fetch fulfilled with
nothing. -/
lemma searchStep_bundle_source (env : Env) (q : String)
    (b : ResolvedProductBundle)
    (h : (catchLog (searchBody env q) none).1 = Except.ok (some b)) :
    b.product.isSome = true ∨
    (b.product = none ∧ ∃ rs bc, env.searchProducts q 1 1 = CallResult.ok rs ∧
      firstBarcode rs = some bc ∧
      env.getProductByBarcode bc = CallResult.ok none) := by
  rcases h1 : env.searchProducts q 1 1 with rs | m
  · rcases h2 : firstBarcode rs with _ | bc
    · rw [searchStep_no_barcode env q rs h1 h2] at h
      simp at h
    · rcases h3 : env.getProductByBarcode bc with r | m
      · rw [searchStep_hit env q bc rs r h1 h2 h3] at h
        have hb : b = { product := r } := by
          simp at h
          exact h.symm
        subst hb
        cases r with
        | some p => exact Or.inl rfl
        | none => exact Or.inr ⟨rfl, rs, bc, rfl, h2, h3⟩
      · rw [searchStep_second_err env q bc m rs h1 h2 h3] at h
        simp at h
  · rw [searchStep_err env q m h1] at h
    simp at h

/-- C1 counterexample: the claimed invariant — a non-absent bundle always
carries a non-null product — fails on the code.  In `envSecondMiss` the
search for `"nutella"` yields a summary whose barcode the second lookup
cannot find, and the resolver still returns a bundle, wrapping an absent
product. -/
theorem C1_counterexample :
    ¬ (∀ (env : Env) (s : String) (b : ResolvedProductBundle),
        (findProduct env s).1 = Except.ok (some b) → b.product.isSome = true) := by
  intro hclaim
  have h := hclaim envSecondMiss "nutella" { product := none } rfl
  simp at h

/-- C1 amended: a non-absent bundle carries a non-null product except on
one path — when the search succeeded, its first result carried a truthy
barcode, and the second lookup fulfilled with no product; only then is a
bundle around an absent product constructed. -/
theorem C1_amended_bundle_nonnull_unless_second_fetch_empty
    (env : Env) (s : String) (b : ResolvedProductBundle)
    (h : (findProduct env s).1 = Except.ok (some b)) :
    b.product.isSome = true ∨
    (b.product = none ∧
     ∃ rs bc, env.searchProducts (jsTrim s) 1 1 = CallResult.ok rs ∧
       firstBarcode rs = some bc ∧
       env.getProductByBarcode bc = CallResult.ok none) := by
  by_cases h1 : jsTrim s = ""
  · rw [findProduct_blank env s h1] at h
    simp at h
  · by_cases h2 : isBarcodeStr (jsTrim s) = true
    · rcases h3 : env.getProductByBarcode (jsTrim s) with r | m
      · cases r with
        | some p =>
          rw [findProduct_barcode_hit env s p h2 h3] at h
          have hb : b = { product := some p } := by
            simp at h
            exact h.symm
          subst hb
          exact Or.inl rfl
        | none =>
          rw [findProduct_barcode_miss env s h2 h3] at h
          exact searchStep_bundle_source env (jsTrim s) b h
      · rw [findProduct_barcode_err env s m h2 h3] at h
        exact searchStep_bundle_source env (jsTrim s) b h
    · rw [findProduct_not_barcode env s h1 (by simpa using h2)] at h
      exact searchStep_bundle_source env (jsTrim s) b h

/-- Witness for the amended C1 in `envSecondMiss` at `"nutella"`: the
returned bundle's absent product is traced back to the second fetch that
fulfilled with nothing. -/
theorem C1_amended_bundle_nonnull_unless_second_fetch_empty_witness :
    ({ product := none } : ResolvedProductBundle).product.isSome = true ∨
    (({ product := none } : ResolvedProductBundle).product = none ∧
     ∃ rs bc, envSecondMiss.searchProducts (jsTrim "nutella") 1 1 = CallResult.ok rs ∧
       firstBarcode rs = some bc ∧
       envSecondMiss.getProductByBarcode bc = CallResult.ok none) :=
  C1_amended_bundle_nonnull_unless_second_fetch_empty envSecondMiss "nutella"
    { product := none } rfl

/-- C2 counterexample: a successful search with at least one result does
not always lead to a second fetch and a returned bundle.  In
`envNoBarcodeHit` the search for `"nutella"` succeeds with one result,
but that result carries no barcode: the resolver makes no second lookup
call at all and returns absent. -/
theorem C2_counterexample :
    envNoBarcodeHit.searchProducts (jsTrim "nutella") 1 1 =
      CallResult.ok { products := [prodNoBarcode] } ∧
    ({ products := [prodNoBarcode] } : ResultSet).products.length = 1 ∧
    findProduct envNoBarcodeHit "nutella" =
      (Except.ok none, [Call.searchCall (jsTrim "nutella") 1 1]) ∧
    (∀ bc, Call.lookupCall bc ∉ (findProduct envNoBarcodeHit "nutella").2) := by
  refine ⟨rfl, rfl, rfl, ?_⟩
  intro bc hmem
  rw [show findProduct envNoBarcodeHit "nutella" =
    (Except.ok none, [Call.searchCall (jsTrim "nutella") 1 1]) from rfl] at hmem
  simp at hmem

/-- C2 amended: whenever the identifier is non-blank, the direct-lookup
path did not already return, the search succeeds, and its first result
carries a truthy (present and non-empty) barcode, the resolver performs
the second barcode lookup; if that lookup fulfils, its result — present
or absent — is wrapped and returned as the bundle, and if it throws,
resolution degrades to absent. -/
theorem C2_amended_hit_leads_to_second_fetch (env : Env) (s : String)
    (rs : ResultSet) (bc : String)
    (h1 : jsTrim s ≠ "") (h2 : directHitB env (jsTrim s) = false)
    (h3 : env.searchProducts (jsTrim s) 1 1 = CallResult.ok rs)
    (h4 : firstBarcode rs = some bc) :
    Call.lookupCall bc ∈ (findProduct env s).2 ∧
    (findProduct env s).1 =
      (match env.getProductByBarcode bc with
       | CallResult.ok r => Except.ok (some { product := r })
       | CallResult.err _ => Except.ok none) := by
  have hsearch : Call.lookupCall bc ∈ (catchLog (searchBody env (jsTrim s)) none).2 ∧
      (catchLog (searchBody env (jsTrim s)) none).1 =
        (match env.getProductByBarcode bc with
         | CallResult.ok r => Except.ok (some { product := r })
         | CallResult.err _ => Except.ok none) := by
    rcases h5 : env.getProductByBarcode bc with r | m
    · rw [searchStep_hit env (jsTrim s) bc rs r h3 h4 h5]
      simp
    · rw [searchStep_second_err env (jsTrim s) bc m rs h3 h4 h5]
      simp
  by_cases hb : isBarcodeStr (jsTrim s) = true
  · rcases h6 : env.getProductByBarcode (jsTrim s) with r | m
    · cases r with
      | some p => exact absurd h2 (by simp [directHitB, hb, h6])
      | none =>
        rw [findProduct_barcode_miss env s hb h6]
        exact ⟨List.mem_cons_of_mem _ hsearch.1, hsearch.2⟩
    · rw [findProduct_barcode_err env s m hb h6]
      exact ⟨List.mem_cons_of_mem _ hsearch.1, hsearch.2⟩
  · rw [findProduct_not_barcode env s h1 (by simpa using hb)]
    exact hsearch

/-- Witness for the amended C2 in `envSearchHit` at `"nutella"`: the
search hit's barcode is fetched a second time and the full record comes
back as the bundle. -/
theorem C2_amended_hit_leads_to_second_fetch_witness :
    Call.lookupCall "3017620422003" ∈ (findProduct envSearchHit "nutella").2 ∧
    (findProduct envSearchHit "nutella").1 =
      Except.ok (some { product := some prodA }) :=
  C2_amended_hit_leads_to_second_fetch envSearchHit "nutella"
    { products := [prodA] } "3017620422003" (by decide) (by decide) rfl (by decide)

/-- Unfolding of `analyzeProduct` once resolution has delivered a
product: the analysis request is sent, and the response depends only on
whether the gateway fulfils or throws. -/
lemma analyzeProduct_resolved (env : Env) (samp : SamplingEnv) (s : String)
    (p : Product) (h : resolvedProduct env s = some p) :
    analyzeProduct env samp s =
      (match samp.requestSampling (analyzeRequest p) with
       | CallResult.ok res =>
         (Except.ok { text := analyzeHeader p ++ getResponseText res,
                      isError := false },
          (findProduct env s).2 ++ [Call.samplingCall (analyzeRequest p)])
       | CallResult.err _ =>
         (Except.ok { text := analyzeFallback p, isError := false },
          (findProduct env s).2 ++ [Call.samplingCall (analyzeRequest p)])) := by
  have hne := resolvedProduct_ne_blank h
  rcases hfp : findProduct env s with ⟨r, t⟩
  cases r with
  | error m =>
    rw [resolvedProduct, hfp] at h
    simp at h
  | ok d =>
    rw [resolvedProduct, hfp] at h
    simp only at h
    simp only [analyzeProduct, if_neg hne, hfp, h]

/-- Unfolding of `suggestRecipes` once resolution has delivered a
product: the recipe request is sent, and the response depends only on
whether the gateway fulfils or throws. -/
lemma suggestRecipes_resolved (env : Env) (samp : SamplingEnv)
    (createReq : Product → SamplingRequest) (s : String)
    (p : Product) (h : resolvedProduct env s = some p) :
    suggestRecipes env samp createReq s =
      (match samp.requestSampling (createReq p) with
       | CallResult.ok res =>
         (Except.ok { text := "# Recipes using " ++ jsShow p.product_name ++
                        "\n\n" ++ getResponseText res, isError := false },
          (findProduct env s).2 ++ [Call.samplingCall (createReq p)])
       | CallResult.err m =>
         (Except.ok { text := "Recipe generation failed: " ++ m,
                      isError := true },
          (findProduct env s).2 ++ [Call.samplingCall (createReq p)])) := by
  have hne := resolvedProduct_ne_blank h
  rcases hfp : findProduct env s with ⟨r, t⟩
  cases r with
  | error m =>
    rw [resolvedProduct, hfp] at h
    simp at h
  | ok d =>
    rw [resolvedProduct, hfp] at h
    simp only at h
    simp only [suggestRecipes, if_neg hne, hfp, h]

/-- Unfolding of `compareProducts` once both resolutions have delivered
products: the comparison request is sent, and the response depends only
on whether the gateway fulfils or throws. -/
lemma compareProducts_resolved (env : Env) (samp : SamplingEnv)
    (n1 n2 : String) (p1 p2 : Product)
    (h1 : resolvedProduct env n1 = some p1)
    (h2 : resolvedProduct env n2 = some p2) :
    compareProducts env samp n1 n2 =
      (match samp.requestSampling (compareRequest p1 p2) with
       | CallResult.ok res =>
         (Except.ok { text := compareHeader p1 p2 ++ "\n\n" ++
                        getResponseText res, isError := false },
          (findProduct env n1).2 ++ (findProduct env n2).2 ++
            [Call.samplingCall (compareRequest p1 p2)])
       | CallResult.err _ =>
         (Except.ok { text := compareFallback p1 p2, isError := false },
          (findProduct env n1).2 ++ (findProduct env n2).2 ++
            [Call.samplingCall (compareRequest p1 p2)])) := by
  have hne1 := resolvedProduct_ne_blank h1
  have hne2 := resolvedProduct_ne_blank h2
  rcases hfp1 : findProduct env n1 with ⟨r1, t1⟩
  rcases hfp2 : findProduct env n2 with ⟨r2, t2⟩
  cases r1 with
  | error m =>
    rw [resolvedProduct, hfp1] at h1
    simp at h1
  | ok d1 =>
    cases r2 with
    | error m =>
      rw [resolvedProduct, hfp2] at h2
      simp at h2
    | ok d2 =>
      rw [resolvedProduct, hfp1] at h1
      rw [resolvedProduct, hfp2] at h2
      simp only at h1 h2
      simp only [compareProducts, if_neg (not_or.mpr ⟨hne1, hne2⟩), hfp1, hfp2,
        h1, h2]

/-- C3: for analyze and compare, when resolution succeeds and the
sampling gateway throws, the response is the deterministic, locally
computed fallback summary and carries no `isError` flag; the two fallback
texts are functions of nothing beyond the already-resolved products'
name, brand, nutrition-grade and ingredients-text fields (the compare
fallback in fact reads only names and nutrition grades). -/
theorem C3_sampling_failure_falls_back (env : Env) (samp : SamplingEnv)
    (s s1 s2 : String) (p p1 p2 : Product) :
    (resolvedProduct env s = some p →
      (∃ m, samp.requestSampling (analyzeRequest p) = CallResult.err m) →
      (analyzeProduct env samp s).1 =
        Except.ok { text := analyzeFallback p, isError := false }) ∧
    (resolvedProduct env s1 = some p1 → resolvedProduct env s2 = some p2 →
      (∃ m, samp.requestSampling (compareRequest p1 p2) = CallResult.err m) →
      (compareProducts env samp s1 s2).1 =
        Except.ok { text := compareFallback p1 p2, isError := false }) ∧
    (∀ q q' : Product, q.product_name = q'.product_name →
      q.brands = q'.brands → q.nutriscore_grade = q'.nutriscore_grade →
      q.ingredients_text = q'.ingredients_text →
      analyzeFallback q = analyzeFallback q') ∧
    (∀ q1 q1' q2 q2' : Product, q1.product_name = q1'.product_name →
      q1.nutriscore_grade = q1'.nutriscore_grade →
      q2.product_name = q2'.product_name →
      q2.nutriscore_grade = q2'.nutriscore_grade →
      compareFallback q1 q2 = compareFallback q1' q2') := by
  refine ⟨?_, ?_, ?_, ?_⟩
  · rintro h ⟨m, hm⟩
    rw [analyzeProduct_resolved env samp s p h, hm]
  · rintro ha hb ⟨m, hm⟩
    rw [compareProducts_resolved env samp s1 s2 p1 p2 ha hb, hm]
  · intro q q' e1 e2 e3 e4
    simp [analyzeFallback, e1, e2, e3, e4]
  · intro q1 q1' q2 q2' e1 e2 e3 e4
    simp [compareFallback, compareHeader, e1, e2, e3, e4]

/-- Witness for C3: with the gateway down, analyze and compare on
`"nutella"` both answer with the local fallback and no error flag, and
the fallback texts are unchanged when only the barcode field — not among
the four named fields — differs. -/
theorem C3_sampling_failure_falls_back_witness :
    (analyzeProduct envSearchHit sampDown "nutella").1 =
      Except.ok { text := analyzeFallback prodA, isError := false } ∧
    (compareProducts envSearchHit sampDown "nutella" "nutella").1 =
      Except.ok { text := compareFallback prodA prodA, isError := false } ∧
    analyzeFallback prodA = analyzeFallback prodAOtherBarcode ∧
    compareFallback prodA prodA =
      compareFallback prodAOtherBarcode prodAOtherBarcode :=
  have h := C3_sampling_failure_falls_back envSearchHit sampDown
    "nutella" "nutella" "nutella" prodA prodA prodA
  ⟨h.1 rfl ⟨"gateway down", rfl⟩,
   h.2.1 rfl rfl ⟨"gateway down", rfl⟩,
   h.2.2.1 prodA prodAOtherBarcode rfl rfl rfl rfl,
   h.2.2.2 prodA prodAOtherBarcode prodA prodAOtherBarcode rfl rfl rfl rfl⟩

/-- C8: when the product resolves but the sampling gateway throws, the
recipe tool answers with `isError = true` and a text carrying the
underlying failure's message — no local fallback report. -/
theorem C8_recipe_sampling_failure_is_error (env : Env) (samp : SamplingEnv)
    (createReq : Product → SamplingRequest) (s : String) (p : Product)
    (m : String)
    (h1 : resolvedProduct env s = some p)
    (h2 : samp.requestSampling (createReq p) = CallResult.err m) :
    (suggestRecipes env samp createReq s).1 =
      Except.ok { text := "Recipe generation failed: " ++ m, isError := true } := by
  rw [suggestRecipes_resolved env samp createReq s p h1, h2]

/-- Witness for C8 at `"nutella"` with the gateway down. -/
theorem C8_recipe_sampling_failure_is_error_witness :
    (suggestRecipes envSearchHit sampDown recipeRequestStub "nutella").1 =
      Except.ok { text := "Recipe generation failed: " ++ "gateway down",
                  isError := true } :=
  C8_recipe_sampling_failure_is_error envSearchHit sampDown recipeRequestStub
    "nutella" prodA "gateway down" rfl rfl

/-- C7: in compare, a missed resolution is a terminal `isError` response
naming exactly the identifier that failed, with no sampling request built
or sent; identifier 1's bundle is checked before identifier 2's, so when
both miss, identifier 1 is the one named. -/
theorem C7_compare_not_found_names_loser (env : Env) (samp : SamplingEnv)
    (n1 n2 : String) (p : Product)
    (h1 : jsTrim n1 ≠ "") (h2 : jsTrim n2 ≠ "") :
    (resolvedProduct env n1 = some p → resolvedProduct env n2 = none →
      (compareProducts env samp n1 n2).1 =
        Except.ok { text := "\"" ++ n2 ++ "\" not found.", isError := true } ∧
      ∀ c ∈ (compareProducts env samp n1 n2).2, c.isSampling = false) ∧
    (resolvedProduct env n1 = none →
      (compareProducts env samp n1 n2).1 =
        Except.ok { text := "\"" ++ n1 ++ "\" not found.", isError := true } ∧
      ∀ c ∈ (compareProducts env samp n1 n2).2, c.isSampling = false) := by
  have hs1 := findProduct_no_sampling env n1
  have hs2 := findProduct_no_sampling env n2
  obtain ⟨d1, hd1⟩ := findProduct_isOk env n1
  obtain ⟨d2, hd2⟩ := findProduct_isOk env n2
  rcases hfp1 : findProduct env n1 with ⟨r1, t1⟩
  rcases hfp2 : findProduct env n2 with ⟨r2, t2⟩
  rw [hfp1] at hd1 hs1
  rw [hfp2] at hd2 hs2
  simp only at hd1 hd2 hs1 hs2
  subst hd1
  subst hd2
  have happ : ∀ c ∈ t1 ++ t2, Call.isSampling c = false := by
    intro c hc
    rcases List.mem_append.mp hc with hc | hc
    · exact hs1 c hc
    · exact hs2 c hc
  constructor
  · intro ha hb
    rw [resolvedProduct, hfp1] at ha
    rw [resolvedProduct, hfp2] at hb
    simp only at ha hb
    simp only [compareProducts, if_neg (not_or.mpr ⟨h1, h2⟩), hfp1, hfp2, ha, hb]
    exact ⟨trivial, happ⟩
  · intro ha
    rw [resolvedProduct, hfp1] at ha
    simp only at ha
    simp only [compareProducts, if_neg (not_or.mpr ⟨h1, h2⟩), hfp1, hfp2, ha]
    exact ⟨trivial, happ⟩

/-- Witness for C7 in `envMixed`: `"111"` resolves and `"222"` does not,
in either argument order, and when both identifiers fail the first one is
the one named; no trace ever carries a sampling call. -/
theorem C7_compare_not_found_names_loser_witness :
    ((compareProducts envMixed sampOk "111" "222").1 =
       Except.ok { text := "\"222\" not found.", isError := true } ∧
     ∀ c ∈ (compareProducts envMixed sampOk "111" "222").2,
       c.isSampling = false) ∧
    ((compareProducts envMixed sampOk "222" "111").1 =
       Except.ok { text := "\"222\" not found.", isError := true } ∧
     ∀ c ∈ (compareProducts envMixed sampOk "222" "111").2,
       c.isSampling = false) ∧
    ((compareProducts envMixed sampOk "222" "333").1 =
       Except.ok { text := "\"222\" not found.", isError := true } ∧
     ∀ c ∈ (compareProducts envMixed sampOk "222" "333").2,
       c.isSampling = false) :=
  ⟨(C7_compare_not_found_names_loser envMixed sampOk "111" "222" prodB
      (by decide) (by decide)).1 rfl rfl,
   (C7_compare_not_found_names_loser envMixed sampOk "222" "111" prodB
      (by decide) (by decide)).2 rfl,
   (C7_compare_not_found_names_loser envMixed sampOk "222" "333" prodB
      (by decide) (by decide)).2 rfl⟩
